import Mathlib

/-!
Verification of the flow-rate-to-oxygen-percentage estimator of
`src/RespMath.py`.  Flow rates and percentages are modelled as rationals;
`ValueError` is modelled by `Except String`; the `Decimal`-based
`ROUND_HALF_UP` quantisation to one decimal place is modelled by
half-away-from-zero rounding on `ℚ`.
-/

namespace RespMath

/-- Constant `ROOM_AIR_O2_PERCENTAGE = 21.0` from the source. -/
def ROOM_AIR_O2_PERCENTAGE : ℚ := 21

/-- Constant `MAX_O2_PERCENTAGE = 100.0` from the source. -/
def MAX_O2_PERCENTAGE : ℚ := 100

/-- Constant `O2_INCREMENT_PER_LPM = 4.0` from the source. -/
def O2_INCREMENT_PER_LPM : ℚ := 4

/-- Constant `MAX_FLOW_RATE = 50.0` from the source. -/
def MAX_FLOW_RATE : ℚ := 50

/-- Constant `MIN_FLOW_RATE = 0.0` from the source. -/
def MIN_FLOW_RATE : ℚ := 0

/-- The `DEVICE_RANGES` dict: device name, `min` bound, `max` bound
(`none` models `float("inf")`).  Python dicts iterate in insertion order,
so a list keeps the loop order of the source. -/
def DEVICE_RANGES : List (String × ℚ × Option ℚ) :=
  [("Nasal Cannula", 0, some 6),
   ("Simple Mask", 6, some 10),
   ("Non-rebreather/Partial Rebreather Mask", 10, some 15),
   ("High Flow System", 15, none)]

/-- The membership test `range_dict["min"] < flow_rate_lpm <= range_dict["max"]`
of the band loop. -/
def matchesRange (f : ℚ) (r : String × ℚ × Option ℚ) : Bool :=
  decide (r.2.1 < f) &&
    (match r.2.2 with
     | none => true
     | some m => decide (f ≤ m))

/-- `validate_flow_rate`: rejects negative flow rates and flow rates above
`MAX_FLOW_RATE`, returning the input unchanged otherwise.  (The
`float(...)` conversion and numeric-type check of the source are the
identity on an already-numeric input, which is what `ℚ` models.) -/
def validate_flow_rate (flow_rate : ℚ) : Except String ℚ :=
  if flow_rate < MIN_FLOW_RATE then
    Except.error "Flow rate cannot be negative. Minimum value is 0.0"
  else if flow_rate > MAX_FLOW_RATE then
    Except.error "Flow rate cannot exceed 50.0 LPM"
  else
    Except.ok flow_rate

/-- `round_to_one_decimal`: `Decimal(str(value)).quantize(Decimal("0.1"),
rounding=ROUND_HALF_UP)`, i.e. rounding to one decimal place with ties
going away from zero. -/
def round_to_one_decimal (value : ℚ) : ℚ :=
  if 0 ≤ value then ((⌊value * 10 + 1 / 2⌋ : ℤ) : ℚ) / 10
  else -(((⌊-value * 10 + 1 / 2⌋ : ℤ) : ℚ) / 10)

/-- The per-device formula chosen inside the band loop
(`if device == "Nasal Cannula": ... elif ... else: 90`). -/
def devicePercentage (device : String) (f : ℚ) : ℚ :=
  if device = "Nasal Cannula" then
    ROOM_AIR_O2_PERCENTAGE + f * O2_INCREMENT_PER_LPM
  else if device = "Simple Mask" then
    40 + (f - 5) * O2_INCREMENT_PER_LPM
  else if device = "Non-rebreather/Partial Rebreather Mask" then
    60 + (f - 10) * 3
  else
    90

/-- `calculate_oxygen_percentage`: validate, return the room-air pair for
`flow_rate ≤ 0`, otherwise take the first matching device range (the
`for` loop with early `return`), compute its formula, clamp at
`MAX_O2_PERCENTAGE` and round; the post-loop line returns the
`"High Flow System or Venturi Mask"` fallback.  (The `except` branch of
the source catches runtime exceptions of the loop body, which the pure
band arithmetic cannot raise, so it has no counterpart here.) -/
def calculate_oxygen_percentage (flow_rate_lpm : ℚ) : Except String (ℚ × String) :=
  match validate_flow_rate flow_rate_lpm with
  | Except.error e => Except.error e
  | Except.ok f =>
    if f ≤ 0 then
      Except.ok (ROOM_AIR_O2_PERCENTAGE, "No supplemental oxygen (room air)")
    else
      match DEVICE_RANGES.find? (matchesRange f) with
      | some r =>
          Except.ok
            (round_to_one_decimal (min (devicePercentage r.1 f) MAX_O2_PERCENTAGE), r.1)
      | none => Except.ok (MAX_O2_PERCENTAGE, "High Flow System or Venturi Mask")

/-- The estimated (pre-clamp, pre-round) percentage that the band reached
for a given flow rate computes: a closed-form reading of the loop. -/
def estimated_percentage (f : ℚ) : ℚ :=
  if f ≤ 0 then 21
  else if f ≤ 6 then 21 + f * 4
  else if f ≤ 10 then 40 + (f - 5) * 4
  else if f ≤ 15 then 60 + (f - 10) * 3
  else 90

/-- The device label the loop selects for a given flow rate. -/
def selected_device (f : ℚ) : String :=
  if f ≤ 0 then "No supplemental oxygen (room air)"
  else if f ≤ 6 then "Nasal Cannula"
  else if f ≤ 10 then "Simple Mask"
  else if f ≤ 15 then "Non-rebreather/Partial Rebreather Mask"
  else "High Flow System"

/-- Normal form of `calculate_oxygen_percentage` on validated inputs:
the faithful loop-based definition equals the piecewise closed form. -/
theorem calc_eq (f : ℚ) (h0 : 0 ≤ f) (h50 : f ≤ 50) :
    calculate_oxygen_percentage f =
      Except.ok
        (if f ≤ 0 then (21, "No supplemental oxygen (room air)")
         else (round_to_one_decimal (min (estimated_percentage f) 100),
               selected_device f)) := by
  have hv : validate_flow_rate f = Except.ok f := by
    unfold validate_flow_rate
    rw [if_neg (by simp [MIN_FLOW_RATE]; exact h0),
      if_neg (by simp [MAX_FLOW_RATE]; exact h50)]
  by_cases hz : f ≤ 0
  · simp [calculate_oxygen_percentage, hv, hz, ROOM_AIR_O2_PERCENTAGE]
  · push_neg at hz
    by_cases h6 : f ≤ 6
    · have hfind : DEVICE_RANGES.find? (matchesRange f) = some ("Nasal Cannula", 0, some 6) := by
        simp [DEVICE_RANGES, List.find?, matchesRange, hz, h6]
      simp [calculate_oxygen_percentage, hv, hfind, devicePercentage,
        estimated_percentage, selected_device, ROOM_AIR_O2_PERCENTAGE,
        O2_INCREMENT_PER_LPM, MAX_O2_PERCENTAGE, not_le.mpr hz, h6]
    · push_neg at h6
      by_cases h10 : f ≤ 10
      · have hfind : DEVICE_RANGES.find? (matchesRange f) = some ("Simple Mask", 6, some 10) := by
          simp [DEVICE_RANGES, List.find?, matchesRange, hz, h6, h10, not_le.mpr h6]
        simp [calculate_oxygen_percentage, hv, hfind, devicePercentage,
          estimated_percentage, selected_device, O2_INCREMENT_PER_LPM,
          MAX_O2_PERCENTAGE, not_le.mpr hz, not_le.mpr h6, h10]
      · push_neg at h10
        by_cases h15 : f ≤ 15
        · have hfind :
              DEVICE_RANGES.find? (matchesRange f) =
                some ("Non-rebreather/Partial Rebreather Mask", 10, some 15) := by
            simp [DEVICE_RANGES, List.find?, matchesRange, hz, h6, h10, h15,
              not_le.mpr h6, not_le.mpr h10]
          simp [calculate_oxygen_percentage, hv, hfind, devicePercentage,
            estimated_percentage, selected_device, MAX_O2_PERCENTAGE,
            not_le.mpr hz, not_le.mpr h6, not_le.mpr h10, h15]
        · push_neg at h15
          have hfind :
              DEVICE_RANGES.find? (matchesRange f) =
                some ("High Flow System", 15, none) := by
            simp [DEVICE_RANGES, List.find?, matchesRange, hz,
              not_le.mpr h6, not_le.mpr h10, not_le.mpr h15, h15]
          simp [calculate_oxygen_percentage, hv, hfind, devicePercentage,
            estimated_percentage, selected_device, MAX_O2_PERCENTAGE,
            not_le.mpr hz, not_le.mpr h6, not_le.mpr h10, not_le.mpr h15]

/-- On nonnegative inputs the half-up rounding is a floor expression. -/
theorem round1_of_nonneg {v : ℚ} (h : 0 ≤ v) :
    round_to_one_decimal v = ((⌊v * 10 + 1 / 2⌋ : ℤ) : ℚ) / 10 :=
  if_pos h

/-- Half-up rounding is monotone on nonnegative inputs. -/
theorem round1_mono {a b : ℚ} (ha : 0 ≤ a) (hab : a ≤ b) :
    round_to_one_decimal a ≤ round_to_one_decimal b := by
  rw [round1_of_nonneg ha, round1_of_nonneg (ha.trans hab)]
  have hf : ⌊a * 10 + 1 / 2⌋ ≤ ⌊b * 10 + 1 / 2⌋ :=
    Int.floor_le_floor (by linarith)
  have hc : ((⌊a * 10 + 1 / 2⌋ : ℤ) : ℚ) ≤ ((⌊b * 10 + 1 / 2⌋ : ℤ) : ℚ) := by
    exact_mod_cast hf
  linarith

/-- Upper bound through half-up rounding: if `10 v ≤ m` then the rounded
value is at most `m / 10`. -/
theorem round1_le {v : ℚ} (m : ℤ) (h0 : 0 ≤ v) (h : v * 10 ≤ (m : ℚ)) :
    round_to_one_decimal v ≤ (m : ℚ) / 10 := by
  rw [round1_of_nonneg h0]
  have hf : ⌊v * 10 + 1 / 2⌋ ≤ m := by
    have hlt : v * 10 + 1 / 2 < ((m + 1 : ℤ) : ℚ) := by push_cast; linarith
    exact Int.lt_add_one_iff.mp (Int.floor_lt.mpr hlt)
  have hc : ((⌊v * 10 + 1 / 2⌋ : ℤ) : ℚ) ≤ ((m : ℤ) : ℚ) := by exact_mod_cast hf
  linarith

/-- Lower bound through half-up rounding: if `m ≤ 10 v` then the rounded
value is at least `m / 10`. -/
theorem le_round1 {v : ℚ} (m : ℤ) (h0 : 0 ≤ v) (h : (m : ℚ) ≤ v * 10) :
    (m : ℚ) / 10 ≤ round_to_one_decimal v := by
  rw [round1_of_nonneg h0]
  have hf : m ≤ ⌊v * 10 + 1 / 2⌋ := Int.le_floor.mpr (by linarith)
  have hc : ((m : ℤ) : ℚ) ≤ ((⌊v * 10 + 1 / 2⌋ : ℤ) : ℚ) := by exact_mod_cast hf
  linarith

/-- On validated inputs the pre-clamp estimate stays in `[21, 90]`. -/
theorem est_bounds (f : ℚ) (_h0 : 0 ≤ f) (_h50 : f ≤ 50) :
    21 ≤ estimated_percentage f ∧ estimated_percentage f ≤ 90 := by
  unfold estimated_percentage
  split_ifs with h1 h2 h3 h4 <;>
    simp only [not_le] at * <;> constructor <;> linarith

/-- Validation error when the flow rate is negative. -/
theorem calc_neg_error {f : ℚ} (h : f < 0) :
    calculate_oxygen_percentage f =
      Except.error "Flow rate cannot be negative. Minimum value is 0.0" := by
  simp [calculate_oxygen_percentage, validate_flow_rate, MIN_FLOW_RATE, h]

/-- Validation error when the flow rate exceeds 50. -/
theorem calc_gt_error {f : ℚ} (h : 50 < f) :
    calculate_oxygen_percentage f =
      Except.error "Flow rate cannot exceed 50.0 LPM" := by
  have hn : ¬ f < 0 := by linarith
  simp [calculate_oxygen_percentage, validate_flow_rate, MIN_FLOW_RATE,
    MAX_FLOW_RATE, hn, h]

/-- Fully resolved closed form: on validated inputs the clamp is inactive
and the result is the rounded estimate with the selected device. -/
theorem calc_closed (f : ℚ) (h0 : 0 ≤ f) (h50 : f ≤ 50) :
    calculate_oxygen_percentage f =
      Except.ok (round_to_one_decimal (estimated_percentage f), selected_device f) := by
  rw [calc_eq f h0 h50]
  have hmin : min (estimated_percentage f) 100 = estimated_percentage f :=
    min_eq_left (by linarith [(est_bounds f h0 h50).2])
  rcases le_or_lt f 0 with hz | hz
  · rw [if_pos hz]
    have he : estimated_percentage f = 21 := by simp [estimated_percentage, hz]
    have hs : selected_device f = "No supplemental oxygen (room air)" := by
      simp [selected_device, hz]
    rw [he, hs]
    norm_num [round_to_one_decimal]
  · rw [if_neg (not_le.mpr hz), hmin]

/-- A successful computation implies the input passed validation. -/
theorem calc_ok_bounds {f : ℚ} {x : ℚ × String}
    (h : calculate_oxygen_percentage f = Except.ok x) : 0 ≤ f ∧ f ≤ 50 := by
  rcases lt_or_le f 0 with hneg | h0
  · rw [calc_neg_error hneg] at h
    exact absurd h (by simp)
  rcases le_or_lt f 50 with h50 | hgt
  · exact ⟨h0, h50⟩
  · rw [calc_gt_error hgt] at h
    exact absurd h (by simp)

/-- C1: for every valid flow rate in `[0, 50]`, `calculate_oxygen_percentage`
returns a percentage in `[21, 100]` and a device label that is one of the
four named devices or the room-air label. -/
theorem claim1_range_invariant (f : ℚ) (h0 : 0 ≤ f) (h50 : f ≤ 50) :
    ∃ p d, calculate_oxygen_percentage f = Except.ok (p, d) ∧
      21 ≤ p ∧ p ≤ 100 ∧
      (d = "Nasal Cannula" ∨ d = "Simple Mask" ∨
       d = "Non-rebreather/Partial Rebreather Mask" ∨ d = "High Flow System" ∨
       d = "No supplemental oxygen (room air)") := by
  have hb := est_bounds f h0 h50
  refine ⟨round_to_one_decimal (estimated_percentage f), selected_device f,
    calc_closed f h0 h50, ?_, ?_, ?_⟩
  · have h := le_round1 210 (by linarith [hb.1]) (by push_cast; linarith [hb.1])
    norm_num at h
    exact h
  · have h := round1_le 1000 (by linarith [hb.1]) (by push_cast; linarith [hb.2])
    norm_num at h
    exact h
  · unfold selected_device
    split_ifs <;> tauto

/-- C1 witness: the invariant instantiated at flow rate 2. -/
theorem claim1_witness :
    ∃ p d, calculate_oxygen_percentage 2 = Except.ok (p, d) ∧
      21 ≤ p ∧ p ≤ 100 ∧
      (d = "Nasal Cannula" ∨ d = "Simple Mask" ∨
       d = "Non-rebreather/Partial Rebreather Mask" ∨ d = "High Flow System" ∨
       d = "No supplemental oxygen (room air)") :=
  claim1_range_invariant 2 (by norm_num) (by norm_num)

/-- C2 counterexample: at flow rate 6.5 the code returns `(46.0, Simple Mask)`,
not `(44.0, Simple Mask)` as the claim states. -/
theorem claim2_counterexample :
    calculate_oxygen_percentage (13 / 2) = Except.ok (46, "Simple Mask") ∧
    ¬ calculate_oxygen_percentage (13 / 2) = Except.ok (44, "Simple Mask") := by
  have h : calculate_oxygen_percentage (13 / 2) = Except.ok (46, "Simple Mask") := by
    rw [calc_closed (13 / 2) (by norm_num) (by norm_num)]
    norm_num [estimated_percentage, selected_device, round_to_one_decimal]
  refine ⟨h, ?_⟩
  rw [h]
  simp

/-- C2 amended: `calculate_oxygen_percentage` applied to flow rate 6.5
returns the pair `(46.0, "Simple Mask")` (the Simple Mask formula gives
`40 + 4 · 1.5 = 46`). -/
theorem claim2_amended :
    calculate_oxygen_percentage (13 / 2) = Except.ok (46, "Simple Mask") := by
  rw [calc_closed (13 / 2) (by norm_num) (by norm_num)]
  norm_num [estimated_percentage, selected_device, round_to_one_decimal]

/-- C3: exactly the inputs outside `[0, 50]` raise the single error kind,
and every input in `[0, 50]` passes validation unchanged (no substituted
default) and produces a normal result. -/
theorem claim3_validation (f : ℚ) :
    ((∃ e, calculate_oxygen_percentage f = Except.error e) ↔ (f < 0 ∨ 50 < f)) ∧
    (0 ≤ f → f ≤ 50 →
      validate_flow_rate f = Except.ok f ∧
      ∃ p d, calculate_oxygen_percentage f = Except.ok (p, d)) := by
  constructor
  · constructor
    · rintro ⟨e, he⟩
      by_contra hc
      push_neg at hc
      rw [calc_closed f (by linarith [hc.1]) hc.2] at he
      exact Except.noConfusion he
    · rintro (h | h)
      · exact ⟨_, calc_neg_error h⟩
      · exact ⟨_, calc_gt_error h⟩
  · intro h0 h50
    refine ⟨?_, _, _, calc_closed f h0 h50⟩
    unfold validate_flow_rate
    rw [if_neg (by simp [MIN_FLOW_RATE]; exact h0),
      if_neg (by simp [MAX_FLOW_RATE]; exact h50)]

/-- C3 witness: flow rate 100 raises, flow rate 3 validates to itself. -/
theorem claim3_witness :
    (∃ e, calculate_oxygen_percentage 100 = Except.error e) ∧
    validate_flow_rate 3 = Except.ok 3 :=
  ⟨(claim3_validation 100).1.mpr (Or.inr (by norm_num)),
   ((claim3_validation 3).2 (by norm_num) (by norm_num)).1⟩

/-- C4: flow rate 6 gives `(45.0, Nasal Cannula)` while flow rate 6.01
gives `(44.0, Simple Mask)`, a one-unit downward discontinuity caused by
the Simple Mask baseline 5. -/
theorem claim4_discontinuity :
    calculate_oxygen_percentage 6 = Except.ok (45, "Nasal Cannula") ∧
    calculate_oxygen_percentage (601 / 100) = Except.ok (44, "Simple Mask") ∧
    (45 : ℚ) - 44 = 1 := by
  refine ⟨?_, ?_, by norm_num⟩
  · rw [calc_closed 6 (by norm_num) (by norm_num)]
    norm_num [estimated_percentage, selected_device, round_to_one_decimal]
  · rw [calc_closed (601 / 100) (by norm_num) (by norm_num)]
    norm_num [estimated_percentage, selected_device, round_to_one_decimal]

/-- C5: a flow rate that passes validation and is at most 0 is exactly 0,
and the result is exactly the room-air pair `(21.0, room-air label)`. -/
theorem claim5_room_air (f : ℚ) (hv : validate_flow_rate f = Except.ok f)
    (hz : f ≤ 0) :
    f = 0 ∧ calculate_oxygen_percentage f =
      Except.ok (21, "No supplemental oxygen (room air)") := by
  have h0 : 0 ≤ f := by
    by_contra hc
    push_neg at hc
    simp [validate_flow_rate, MIN_FLOW_RATE, hc] at hv
  have hf : f = 0 := le_antisymm hz h0
  subst hf
  refine ⟨rfl, ?_⟩
  rw [calc_eq 0 le_rfl (by norm_num), if_pos le_rfl]

/-- C5 witness: the room-air result at flow rate 0. -/
theorem claim5_witness :
    (0 : ℚ) = 0 ∧ calculate_oxygen_percentage 0 =
      Except.ok (21, "No supplemental oxygen (room air)") :=
  claim5_room_air 0 (by simp [validate_flow_rate, MIN_FLOW_RATE, MAX_FLOW_RATE]) le_rfl

/-- C6: flow rate 15 gives `(75.0, Non-rebreather/Partial Rebreather Mask)`
and flow rate 16 gives `(90.0, High Flow System)`. -/
theorem claim6_band_points :
    calculate_oxygen_percentage 15 =
      Except.ok (75, "Non-rebreather/Partial Rebreather Mask") ∧
    calculate_oxygen_percentage 16 = Except.ok (90, "High Flow System") := by
  constructor
  · rw [calc_closed 15 (by norm_num) (by norm_num)]
    norm_num [estimated_percentage, selected_device, round_to_one_decimal]
  · rw [calc_closed 16 (by norm_num) (by norm_num)]
    norm_num [estimated_percentage, selected_device, round_to_one_decimal]

/-- Two flow rates with the same selected device label lie in the same
band, where the estimate is non-decreasing. -/
theorem est_mono_of_same_device {f1 f2 : ℚ} (hle : f1 ≤ f2)
    (hd : selected_device f1 = selected_device f2) :
    estimated_percentage f1 ≤ estimated_percentage f2 := by
  unfold selected_device at hd
  unfold estimated_percentage
  split_ifs at hd <;> split_ifs <;>
    first
      | linarith
      | exact absurd hd (by decide)

/-- C7: within a single band (same returned device label), the returned
percentage is monotonically non-decreasing in the flow rate. -/
theorem claim7_band_mono (f1 f2 p1 p2 : ℚ) (d : String) (hle : f1 ≤ f2)
    (h1 : calculate_oxygen_percentage f1 = Except.ok (p1, d))
    (h2 : calculate_oxygen_percentage f2 = Except.ok (p2, d)) :
    p1 ≤ p2 := by
  obtain ⟨h01, h501⟩ := calc_ok_bounds h1
  obtain ⟨h02, h502⟩ := calc_ok_bounds h2
  rw [calc_closed f1 h01 h501] at h1
  rw [calc_closed f2 h02 h502] at h2
  have e1 := Except.ok.inj h1
  have e2 := Except.ok.inj h2
  have hp1 : round_to_one_decimal (estimated_percentage f1) = p1 :=
    congrArg Prod.fst e1
  have hp2 : round_to_one_decimal (estimated_percentage f2) = p2 :=
    congrArg Prod.fst e2
  have hd1 : selected_device f1 = d := congrArg Prod.snd e1
  have hd2 : selected_device f2 = d := congrArg Prod.snd e2
  have hsame : selected_device f1 = selected_device f2 := by rw [hd1, hd2]
  have hmono := est_mono_of_same_device hle hsame
  have hnn : 0 ≤ estimated_percentage f1 := by
    linarith [(est_bounds f1 h01 h501).1]
  rw [← hp1, ← hp2]
  exact round1_mono hnn hmono

/-- C7 witness: flow rates 2 and 3 both select Nasal Cannula and give
29 ≤ 33. -/
theorem claim7_witness :
    calculate_oxygen_percentage 2 = Except.ok (29, "Nasal Cannula") ∧
    calculate_oxygen_percentage 3 = Except.ok (33, "Nasal Cannula") ∧
    (29 : ℚ) ≤ 33 := by
  have ha : calculate_oxygen_percentage 2 = Except.ok (29, "Nasal Cannula") := by
    rw [calc_closed 2 (by norm_num) (by norm_num)]
    norm_num [estimated_percentage, selected_device, round_to_one_decimal]
  have hb : calculate_oxygen_percentage 3 = Except.ok (33, "Nasal Cannula") := by
    rw [calc_closed 3 (by norm_num) (by norm_num)]
    norm_num [estimated_percentage, selected_device, round_to_one_decimal]
  exact ⟨ha, hb, claim7_band_mono 2 3 29 33 "Nasal Cannula" (by norm_num) ha hb⟩

/-- C8: on valid inputs the returned percentage is the band estimate,
clamped at 100, rounded half-up to one decimal; the rounding is half-up,
not banker-style (4.45 rounds to 4.5, not 4.4). -/
theorem claim8_round_clamp (f : ℚ) (h0 : 0 ≤ f) (h50 : f ≤ 50) :
    (∃ d, calculate_oxygen_percentage f =
        Except.ok (round_to_one_decimal (min (estimated_percentage f) 100), d)) ∧
    round_to_one_decimal (89 / 20) = 9 / 2 ∧
    round_to_one_decimal (89 / 20) ≠ 22 / 5 := by
  refine ⟨?_, ?_, ?_⟩
  · rcases le_or_lt f 0 with hz | hz
    · refine ⟨"No supplemental oxygen (room air)", ?_⟩
      rw [calc_eq f h0 h50, if_pos hz]
      have he : estimated_percentage f = 21 := by simp [estimated_percentage, hz]
      rw [he]
      norm_num [round_to_one_decimal]
    · exact ⟨selected_device f, by rw [calc_eq f h0 h50, if_neg (not_le.mpr hz)]⟩
  · norm_num [round_to_one_decimal]
  · norm_num [round_to_one_decimal]

/-- C8 witness: the rounded-clamped form at flow rate 3. -/
theorem claim8_witness :
    ∃ d, calculate_oxygen_percentage 3 =
      Except.ok (round_to_one_decimal (min (estimated_percentage 3) 100), d) :=
  (claim8_round_clamp 3 (by norm_num) (by norm_num)).1

/-- C9: on valid inputs the pre-clamp estimate never exceeds 90, the clamp
at 100 is inactive, and the result never equals 100. -/
theorem claim9_clamp_inactive (f : ℚ) (h0 : 0 ≤ f) (h50 : f ≤ 50) :
    estimated_percentage f ≤ 90 ∧
    min (estimated_percentage f) 100 = estimated_percentage f ∧
    ∀ p d, calculate_oxygen_percentage f = Except.ok (p, d) → p ≤ 90 ∧ p ≠ 100 := by
  have hb := est_bounds f h0 h50
  refine ⟨hb.2, min_eq_left (by linarith [hb.2]), ?_⟩
  intro p d h
  rw [calc_closed f h0 h50] at h
  have hp : round_to_one_decimal (estimated_percentage f) = p :=
    congrArg Prod.fst (Except.ok.inj h)
  have hle : round_to_one_decimal (estimated_percentage f) ≤ 90 := by
    have h9 := @round1_le (estimated_percentage f) 900
      (by linarith [hb.1]) (by push_cast; linarith [hb.2])
    norm_num at h9
    exact h9
  constructor
  · rw [← hp]
    exact hle
  · intro hq
    rw [← hp] at hq
    rw [hq] at hle
    norm_num at hle

/-- C9 witness: the clamp is inactive at flow rate 3. -/
theorem claim9_witness :
    estimated_percentage 3 ≤ 90 ∧
    min (estimated_percentage 3) 100 = estimated_percentage 3 :=
  ⟨(claim9_clamp_inactive 3 (by norm_num) (by norm_num)).1,
   (claim9_clamp_inactive 3 (by norm_num) (by norm_num)).2.1⟩

/-- C10: on validated positive inputs exactly one device range matches, so
neither the post-loop fallback label nor the exception-branch label can be
returned. -/
theorem claim10_unique_band (f : ℚ) (h0 : 0 < f) (h50 : f ≤ 50) :
    DEVICE_RANGES.countP (matchesRange f) = 1 ∧
    ∀ p d, calculate_oxygen_percentage f = Except.ok (p, d) →
      d ≠ "High Flow System or Venturi Mask" ∧ d ≠ "Error in calculation" := by
  constructor
  · by_cases h6 : f ≤ 6
    · have hb2 : ¬ 6 < f := not_lt.mpr h6
      have hb3 : ¬ 10 < f := not_lt.mpr (by linarith)
      have hb4 : ¬ 15 < f := not_lt.mpr (by linarith)
      simp [DEVICE_RANGES, List.countP_cons, matchesRange, h0, h6, hb2, hb3, hb4]
    · push_neg at h6
      by_cases h10 : f ≤ 10
      · have hb3 : ¬ 10 < f := not_lt.mpr h10
        have hb4 : ¬ 15 < f := not_lt.mpr (by linarith)
        simp [DEVICE_RANGES, List.countP_cons, matchesRange, h0, h6, h10,
          not_le.mpr h6, hb3, hb4]
      · push_neg at h10
        by_cases h15 : f ≤ 15
        · have hb4 : ¬ 15 < f := not_lt.mpr h15
          simp [DEVICE_RANGES, List.countP_cons, matchesRange, h0, h6, h10, h15,
            not_le.mpr h6, not_le.mpr h10, hb4]
        · push_neg at h15
          simp [DEVICE_RANGES, List.countP_cons, matchesRange, h0, h15,
            not_le.mpr h6, not_le.mpr h10, not_le.mpr h15]
  · intro p d h
    rw [calc_closed f (le_of_lt h0) h50] at h
    have hd : selected_device f = d := congrArg Prod.snd (Except.ok.inj h)
    subst hd
    refine ⟨?_, ?_⟩ <;> (unfold selected_device; split_ifs <;> decide)

/-- C10 witness: exactly one band matches at flow rate 3. -/
theorem claim10_witness :
    DEVICE_RANGES.countP (matchesRange 3) = 1 :=
  (claim10_unique_band 3 (by norm_num) (by norm_num)).1

end RespMath
